import Mathlib

/-
Verification of the client-side navigation engine (create_client in the
router source). The definitions below are a shallow embedding of the
client: pure data for URLs, load results, branch nodes and navigation
state, and executable functions mirroring load_node, load_route,
get_navigation_result_from_branch, load_root_error_page, the redirect
chain handling in update/goto, the result cache with TTL and session
invalidation, the cancellation-token discipline of update, the
history-index / scroll-position bookkeeping, and get_navigation_intent /
prefetch.

Modelling conventions:
* JavaScript objects with string keys become association lists whose
  lookup takes the first matching key; spread-merge is merge_stuff.
* Loader functions use getter-based usage tracking in the source; here a
  loader is a pure function returning both its outcome and the Uses
  record of the inputs it read (the spec itself prescribes this explicit
  read-log reimplementation in its design notes).
* Module identity (module !== previous.module) is compared through a
  numeric ref field; component values are represented by the same ref.
* Promises are already-resolved values: an await is just a suspension
  point, captured where needed by the explicit step machines below.
* Thrown errors are strings; coalesce_to_error (a util outside src/) is
  the identity on them.
-/

set_option autoImplicit false

namespace Router

abbrev Stuff := List (String × Nat)
abbrev Props := List (String × Nat)
abbrev ParamsT := List (String × String)

/-- A parsed URL, as the browser URL object exposes it. -/
structure UrlT where
  origin : String
  pathname : String
  search : String
  hash : String
deriving DecidableEq, Repr

/-- `url.href`: origin, pathname, search and hash concatenated. -/
def url_href (u : UrlT) : String :=
  u.origin ++ u.pathname ++ u.search ++ u.hash

/-- The result-cache key used by get_navigation_result_from_branch:
`url.pathname + url.search` — the hash is intentionally omitted. -/
def cache_key (u : UrlT) : String :=
  u.pathname ++ u.search

/-- Shallow spread-merge of two stuff objects, later keys override
(`{...a, ...b}`): keys of `a` not overridden by `b`, in order, then `b`. -/
def merge_stuff (a b : Stuff) : Stuff :=
  a.filter (fun kv => !((b.map Prod.fst).contains kv.1)) ++ b

/-- `new URL(dep, url).href` for the dependency strings the claims use:
an absolute URL is kept, a root-relative path is resolved against the
page origin. -/
def resolve_dep (u : UrlT) (dep : String) : String :=
  if (dep.splitOn "://").length > 1 then dep else u.origin ++ dep

/-- The normalized output of a loader (`LoadResult`): status, error,
redirect target, props, stuff contribution, declared dependency URLs and
an optional cache maxage (seconds). -/
structure LoadResult where
  status : Option Nat
  error : Option String
  redirect : Option String
  props : Props
  stuff : Option Stuff
  dependencies : List String
  cache : Option Nat
deriving DecidableEq, Repr

/-- Modelled from the spec: `normalize` (from load.js, which is not under
src/) turns a loader's return value into a `LoadResult`; loaders in this
embedding already produce a `LoadResult`, so it is the identity. -/
def normalize (r : LoadResult) : LoadResult := r

/-- The usage record load_node builds through its tracking getters: which
named params were read, whether url / session / stuff were read, and the
resolved dependency URLs registered through fetch or declared by the
loader. -/
structure Uses where
  params : List String
  url : Bool
  session : Bool
  stuff : Bool
  dependencies : List String
deriving DecidableEq, Repr

/-- The context handed to a loader (the `LoadEvent`). -/
structure LoadCtx where
  routeId : Option String
  params : ParamsT
  props : Props
  url : UrlT
  session : Nat
  stuff : Stuff
  status : Option Nat
  error : Option String

/-- What a loader call can do: resolve with no value, resolve with a
(normalized) result, or throw. -/
inductive LoadOutcome where
  | missing
  | ok (r : LoadResult)
  | threw (e : String)

/-- A route module: a reference identity (for `module !== previous.module`)
and an optional load function returning its outcome together with the
read-log of the inputs it touched. -/
structure Module where
  ref : Nat
  load : Option (LoadCtx → LoadOutcome × Uses)

/-- The result of executing one loader (`BranchNode`). -/
structure BranchNode where
  module : Module
  uses : Uses
  loaded : Option LoadResult
  stuff : Stuff

/-- The last committed navigation (`NavigationState`). `url` is null
before the first commit. -/
structure NavigationState where
  url : Option UrlT
  params : ParamsT
  branch : List (Option BranchNode)
  error : Option String
  stuff : Stuff
  session_id : Nat

/-- The `$page` props object attached to a navigation result when the
page changed. -/
structure PageInfo where
  error : Option String
  params : ParamsT
  routeId : Option String
  status : Option Nat
  stuff : Stuff
  url : UrlT
deriving DecidableEq, Repr

/-- The render-ready output of a branch load (`NavigationResult`):
redirect target, the new state, the component refs and per-node props of
the filtered branch, and the page store value when the page changed. -/
structure NavigationResult where
  redirect : Option String
  state : NavigationState
  components : List Nat
  props_list : List (Option Props)
  page : Option PageInfo

/-- A route from the parsed manifest: its id, the ordered layout/leaf
loader modules `a`, the error-boundary modules `b` (index-aligned), and
whether the leaf is server-shadowed. -/
structure RouteDef where
  id : String
  a : List (Option Module)
  b : List (Option Module)
  has_shadow : Bool

/-- A resolved navigation intent: cache id, url, extracted params and the
matched route. -/
structure Intent where
  id : String
  url : UrlT
  params : ParamsT
  route : RouteDef

/-- The response of the shadow-endpoint `__data.json` fetch: ok flag,
status, the `x-sveltekit-location` header, the decoded props body (a 204
is decoded as the empty props object) and, for a non-ok response, the
JSON-decoded error body when it parses. -/
structure ShadowResponse where
  ok : Bool
  status : Nat
  location : Option String
  props : Props
  errorBody : Option String

/-- Environment of a branch load: the shadow-endpoint response for this
navigation and the eagerly imported root layout / error components. -/
structure LoadEnv where
  shadow : ShadowResponse
  default_layout : Module
  default_error : Module

/-- The mutable client closure state read by load_route: the current
NavigationState, session identity and value, the registered invalidation
predicates, the result cache, and the in-flight load_cache slot. -/
structure ClientState where
  current : NavigationState
  session_id : Nat
  session : Nat
  invalidated : List (String → Bool)
  cache : List (String × NavigationResult)
  load_cache_id : Option String
  load_cache_promise : Option NavigationResult

/-- The module-level root stuff object (empty). -/
def root_stuff : Stuff := []

/-- load_node: build a BranchNode by running the module's load function
(if any) with the tracking context. A loader resolving with no value
throws "load function must return a value"; a throwing loader propagates
its error; shadow props mark the page URL as a dependency of itself. -/
def load_node (status : Option Nat) (error : Option String) (module : Module) (url : UrlT)
    (params : ParamsT) (stuff : Stuff) (session : Nat) (routeId : Option String)
    (props : Option Props) : Except String BranchNode :=
  let base_deps : List String :=
    match props with
    | some _ => [url_href url]
    | none => []
  match module.load with
  | some f =>
    let ctx : LoadCtx :=
      { routeId := routeId, params := params, props := props.getD [], url := url,
        session := session, stuff := stuff, status := status, error := error }
    match f ctx with
    | (.missing, _) => .error "load function must return a value"
    | (.threw e, _) => .error e
    | (.ok r, used) =>
      let loaded := normalize r
      .ok { module := module,
            uses := { params := used.params, url := used.url, session := used.session,
                      stuff := used.stuff,
                      dependencies := base_deps
                        ++ used.dependencies.map (resolve_dep url)
                        ++ loaded.dependencies.map (resolve_dep url) },
            loaded := some loaded,
            stuff := match loaded.stuff with
                     | some s => s
                     | none => stuff }
  | none =>
    match props with
    | some p =>
      .ok { module := module,
            uses := { params := [], url := false, session := false, stuff := false,
                      dependencies := base_deps },
            loaded := some (normalize { status := none, error := none, redirect := none,
                                        props := p, stuff := none, dependencies := [],
                                        cache := none }),
            stuff := stuff }
    | none =>
      .ok { module := module,
            uses := { params := [], url := false, session := false, stuff := false,
                      dependencies := base_deps },
            loaded := none,
            stuff := stuff }

/-- The `changed` descriptor load_route computes against the current
state: did pathname+search change, which named params changed value, did
the session identity change. It is null exactly when `current.url` is. -/
structure Changed where
  url : Bool
  params : List String
  session : Bool
deriving DecidableEq, Repr

def compute_changed (st : ClientState) (intent : Intent) : Option Changed :=
  st.current.url.map (fun cu =>
    { url := intent.id != cu.pathname ++ cu.search,
      params := (intent.params.map Prod.fst).filter
        (fun key => st.current.params.lookup key != intent.params.lookup key),
      session := st.session_id != st.current.session_id })

/-- The reuse check of load_route (`changed_since_last_render`): a
previous node is stale if it is absent, its module reference differs, an
input its usage record marks is in the changed set, one of its dependency
URLs satisfies an active invalidation predicate, or an earlier node's
stuff contribution changed in this pass. In the source `changed` is only
dereferenced after `!previous` short-circuits, so it is non-null whenever
a previous node exists; the `getD` defaults mirror that. -/
def changed_since_last_render (previous : Option BranchNode) (module : Module)
    (changed : Option Changed) (invalidated : List (String → Bool))
    (stuff_changed : Bool) : Bool :=
  match previous with
  | none => true
  | some prev =>
    module.ref != prev.module.ref
    || ((changed.map Changed.url).getD false && prev.uses.url)
    || ((changed.map Changed.params).getD []).any (fun p => prev.uses.params.contains p)
    || ((changed.map Changed.session).getD false && prev.uses.session)
    || prev.uses.dependencies.any (fun dep => invalidated.any (fun f => f dep))
    || (stuff_changed && prev.uses.stuff)

/-- Whether the `$page` object changes: first commit, different href,
different error or different stuff (the source compares the latter two by
object identity; freshly produced errors and stuff are fresh objects, and
the claims below only consult `page` on freshly generated error pages,
where the value comparison agrees). -/
def page_changed (current : NavigationState) (url : UrlT) (error : Option String)
    (stuff : Stuff) : Bool :=
  match current.url with
  | none => true
  | some cu =>
    url_href cu != url_href url || current.error != error || current.stuff != stuff

/-- get_navigation_result_from_branch: assemble the NavigationResult from
the loaded branch and, when the leaf declares a cache maxage, insert it
into the result cache keyed by pathname+search (the timed eviction and
session invalidation of that entry are modelled by cache_step below).
Returns the result together with the updated cache. -/
def get_navigation_result_from_branch (session_id : Nat) (current : NavigationState)
    (cache : List (String × NavigationResult)) (url : UrlT) (params : ParamsT)
    (stuff : Stuff) (branch : List (Option BranchNode)) (status : Option Nat)
    (error : Option String) (routeId : Option String) :
    NavigationResult × List (String × NavigationResult) :=
  let filtered := branch.filterMap id
  let result : NavigationResult :=
    { redirect := filtered.findSome? (fun f => f.loaded.bind LoadResult.redirect),
      state := { url := some url, params := params, branch := branch, error := error,
                 stuff := stuff, session_id := session_id },
      components := filtered.map (fun n => n.module.ref),
      props_list := filtered.map (fun n => n.loaded.map LoadResult.props),
      page := if page_changed current url error stuff
              then some { error := error, params := params, routeId := routeId,
                          status := status, stuff := stuff, url := url }
              else none }
  match filtered.getLast? |>.bind (fun l => l.loaded.bind LoadResult.cache) with
  | some _ =>
    (result, (cache_key url, result) :: cache.filter (fun kv => kv.1 != cache_key url))
  | none => (result, cache)

/-- The early-return value of load_route on a redirect:
`{ redirect, props: {}, state: current }`. -/
def redirect_result (st : ClientState) (r : String) : NavigationResult :=
  { redirect := some r, state := st.current, components := [], props_list := [],
    page := none }

/-- load_root_error_page: load the root layout and the default error
component with empty params and stuff, bypassing route ancestors. -/
def load_root_error_page (env : LoadEnv) (st : ClientState) (status : Option Nat)
    (error : String) (url : UrlT) (routeId : Option String) :
    Except String (NavigationResult × List (String × NavigationResult)) := do
  let root_layout ← load_node none none env.default_layout url [] root_stuff st.session
    routeId none
  let root_error ← load_node status (some error) env.default_error url []
    ((root_layout.loaded.bind LoadResult.stuff).getD root_stuff) st.session routeId none
  pure (get_navigation_result_from_branch st.session_id st.current st.cache url []
    (merge_stuff ((root_layout.loaded.bind LoadResult.stuff).getD [])
                 ((root_error.loaded.bind LoadResult.stuff).getD []))
    [some root_layout, some root_error] status (some error) routeId)

/-- Instrumented output of a branch load: the result, the updated result
cache, the positions whose loader was (re-)executed in order, the
position at which an in-loop redirect returned early (if any), and
whether the call was answered by the in-flight slot or the result
cache. -/
structure LoopOut where
  result : NavigationResult
  cache : List (String × NavigationResult)
  executed : List Nat
  earlyRedirect : Option Nat
  fromInFlight : Bool
  fromCache : Bool

/-- Outcome of re-executing one branch position. -/
inductive PositionOutcome where
  | redirected (r : String)
  | failed (status : Option Nat) (error : String)
  | loaded (node : BranchNode)

/-- Run the loader at one position (after any shadow fetch produced
`props`); a throw is caught as a 500, a loaded redirect wins over a
loaded error (the source records the error and then returns on the
redirect), a shadow page marks `uses.url`. -/
def run_loader_step (st : ClientState) (url : UrlT) (params : ParamsT) (route : RouteDef)
    (module : Module) (is_shadow : Bool) (stuff : Stuff) (props : Option Props) :
    PositionOutcome :=
  match load_node none none module url params stuff st.session (some route.id) props with
  | .error e => .failed (some 500) e
  | .ok node0 =>
    let node := if is_shadow
      then { node0 with uses := { node0.uses with url := true } }
      else node0
    match node.loaded with
    | some l =>
      match l.redirect with
      | some r => .redirected r
      | none =>
        match l.error with
        | some e => .failed l.status e
        | none => .loaded node
    | none => .loaded node

/-- Re-execute position `i`: for the leaf of a shadowed page first issue
the `__data.json` fetch (a location header short-circuits with a
redirect, a non-ok response becomes a load error with the decoded body),
then run the loader. The boolean reports whether load_node ran. -/
def reexec_position (env : LoadEnv) (st : ClientState) (url : UrlT) (params : ParamsT)
    (route : RouteDef) (module : Module) (is_shadow : Bool) (stuff : Stuff) :
    PositionOutcome × Bool :=
  if is_shadow then
    if env.shadow.ok then
      match env.shadow.location with
      | some r => (.redirected r, false)
      | none =>
        (run_loader_step st url params route module is_shadow stuff (some env.shadow.props),
         true)
    else
      (.failed (some env.shadow.status)
        ((env.shadow.errorBody).getD "Failed to load data"), false)
  else
    (run_loader_step st url params route module is_shadow stuff none, true)

/-- The `while (!(node_loaded = branch[j])) j -= 1` scan of the recovery
walk: the nearest already-loaded node at index at most `j`. -/
def find_below (branch : List (Option BranchNode)) : Nat → Option (Nat × BranchNode)
  | 0 => (branch[0]?.bind id).map (fun n => (0, n))
  | j + 1 =>
    match branch[j+1]?.bind id with
    | some n => some (j + 1, n)
    | none => find_below branch j

/-- The error-recovery walk (`while (i--)`): try boundary modules from
the position below the failing one downward; a boundary that throws or
loads an error is skipped; a succeeding one truncates the branch at the
nearest loaded node below it and appends the boundary node, returning the
new branch and the boundary's stuff contribution. -/
def error_walk (st : ClientState) (url : UrlT) (params : ParamsT) (route : RouteDef)
    (branch : List (Option BranchNode)) (status : Option Nat) (error : String) :
    Nat → Option (List (Option BranchNode) × Option Stuff)
  | 0 => none
  | i + 1 =>
    match (route.b[i]?).bind id with
    | none => error_walk st url params route branch status error i
    | some bmod =>
      match find_below branch i with
      | none => error_walk st url params route branch status error i
      | some jn =>
        match load_node status (some error) bmod url params jn.2.stuff st.session
            (some route.id) none with
        | .error _ => error_walk st url params route branch status error i
        | .ok el =>
          if (el.loaded.bind LoadResult.error).isSome then
            error_walk st url params route branch status error i
          else
            some (branch.take (jn.1 + 1) ++ [some el], el.loaded.bind LoadResult.stuff)

/-- Exit of the forward loop (label `load`): assemble the result from the
branch; the failure status/error are those live at the break point, or
200/null when the loop ran to completion. -/
def finish_branch (st : ClientState) (url : UrlT) (params : ParamsT) (route : RouteDef)
    (branch : List (Option BranchNode)) (stuff : Stuff) (status : Option Nat)
    (error : Option String) (executed : List Nat) : LoopOut :=
  let rc := get_navigation_result_from_branch st.session_id st.current st.cache url params
    stuff branch status error (some route.id)
  { result := rc.1, cache := rc.2, executed := executed, earlyRedirect := none,
    fromInFlight := false, fromCache := false }

/-- The `if (error)` arm of the loop body: run the recovery walk; on
success break out of the loop with the truncated branch and merged stuff,
otherwise fall back to the root error page. -/
def handle_error (env : LoadEnv) (st : ClientState) (url : UrlT) (params : ParamsT)
    (route : RouteDef) (branch : List (Option BranchNode)) (stuff : Stuff)
    (status : Option Nat) (error : String) (executed : List Nat) (i : Nat) :
    Except String LoopOut :=
  match error_walk st url params route branch status error i with
  | some bs =>
    let stuff2 := match bs.2 with
      | some s => merge_stuff stuff s
      | none => stuff
    .ok (finish_branch st url params route bs.1 stuff2 status (some error) executed)
  | none =>
    (load_root_error_page env st status error url (some route.id)).map
      (fun rc => { result := rc.1, cache := rc.2, executed := executed,
                   earlyRedirect := none, fromInFlight := false, fromCache := false })

/-- The `load:` loop of load_route over the remaining modules of `a`
(`rest = route.a.drop i`). A null slot is skipped without a push; a
reusable previous node is pushed unchanged; otherwise the position is
re-executed: a redirect returns `{redirect, props:{}, state: current}`
immediately, an error enters the recovery walk, a loaded node merges its
stuff contribution and marks stuff_changed for later positions. -/
def load_loop (env : LoadEnv) (st : ClientState) (url : UrlT) (params : ParamsT)
    (route : RouteDef) (changed : Option Changed) :
    List (Option Module) → Nat → List (Option BranchNode) → Stuff → Bool → List Nat →
    Except String LoopOut
  | [], _, branch, stuff, _, executed =>
    .ok (finish_branch st url params route branch stuff (some 200) none executed)
  | none :: rest, i, branch, stuff, sc, executed =>
    load_loop env st url params route changed rest (i + 1) branch stuff sc executed
  | some module :: rest, i, branch, stuff, sc, executed =>
    let previous := (st.current.branch[i]?).bind id
    if changed_since_last_render previous module changed st.invalidated sc then
      -- is_shadow: the leaf of a server-shadowed page (i === a.length - 1)
      match reexec_position env st url params route module
        (route.has_shadow && rest.isEmpty) stuff with
      | (.redirected r, ran) =>
        .ok { result := redirect_result st r, cache := st.cache,
              executed := executed ++ (if ran then [i] else []), earlyRedirect := some i,
              fromInFlight := false, fromCache := false }
      | (.failed status error, ran) =>
        handle_error env st url params route branch stuff status error
          (executed ++ (if ran then [i] else [])) i
      | (.loaded node, _) =>
        let stuff2 := match node.loaded.bind LoadResult.stuff with
          | some s => merge_stuff stuff s
          | none => stuff
        let sc2 := sc || (node.loaded.bind LoadResult.stuff).isSome
        load_loop env st url params route changed rest (i + 1) (branch ++ [some node])
          stuff2 sc2 (executed ++ [i])
    else
      match previous with
      | some prev =>
        let stuff2 := match prev.loaded.bind LoadResult.stuff with
          | some s => merge_stuff stuff s
          | none => stuff
        load_loop env st url params route changed rest (i + 1) (branch ++ [some prev])
          stuff2 sc executed
      | none =>
        -- unreachable: changed_since_last_render is true when previous is absent
        load_loop env st url params route changed rest (i + 1) branch stuff sc executed

/-- The body of load_route past the in-flight and cache checks. -/
def load_route_main (env : LoadEnv) (st : ClientState) (intent : Intent) :
    Except String LoopOut :=
  load_loop env st intent.url intent.params intent.route (compute_changed st intent)
    intent.route.a 0 [] root_stuff false []

/-- Step 2 of load_route: unless no_cache, a result-cache hit for
`intent.id` is returned as is. -/
def load_route_fresh (env : LoadEnv) (st : ClientState) (intent : Intent)
    (no_cache : Bool) : Except String LoopOut :=
  if no_cache then load_route_main env st intent
  else
    match st.cache.lookup intent.id with
    | some cached =>
      .ok { result := cached, cache := st.cache, executed := [], earlyRedirect := none,
            fromInFlight := false, fromCache := true }
    | none => load_route_main env st intent

/-- load_route: an in-flight load for the same id is returned (this check
precedes, and is independent of, the no_cache flag), then the result
cache is consulted unless no_cache, then the branch is loaded. -/
def load_route (env : LoadEnv) (st : ClientState) (intent : Intent) (no_cache : Bool) :
    Except String LoopOut :=
  match st.load_cache_id, st.load_cache_promise with
  | some lid, some p =>
    if lid = intent.id then
      .ok { result := p, cache := st.cache, executed := [], earlyRedirect := none,
            fromInFlight := true, fromCache := false }
    else load_route_fresh env st intent no_cache
  | some _, none => load_route_fresh env st intent no_cache
  | none, _ => load_route_fresh env st intent no_cache

/-! ## Redirect chain handling in `update` / `goto`

`update(url, redirect_chain, ...)` treats a redirect result as follows:
if `redirect_chain.length > 10 || redirect_chain.includes(url.pathname)`
the navigation is routed to the root error page with status 500 and
error "Redirect loop"; otherwise `goto` is re-entered on the target with
`[...redirect_chain, url.pathname]`. The chain is modelled as the list
of pathnames, and the branch load of each visited pathname as a function
giving its redirect target (none = the load commits). Fuel bounds the
recursion depth of the embedding; the source recursion is bounded by the
guard itself, so any fuel above twelve is enough from an empty chain. -/

/-- Outcome of a navigation from the redirect-handling viewpoint. The
rootError constructor also records, as instrumentation, the chain and
pathname live at the moment the guard fired. -/
inductive UpdateOutcome where
  | committed (path : String)
  | rootError (status : Nat) (error : String) (chain : List String) (path : String)
  | stalled
deriving DecidableEq, Repr

def follow_redirects (load : String → Option String) :
    Nat → List String → String → UpdateOutcome
  | 0, _, _ => .stalled
  | fuel + 1, chain, path =>
    match load path with
    | none => .committed path
    | some target =>
      if chain.length > 10 ∨ chain.contains path then
        .rootError 500 "Redirect loop" chain path
      else
        follow_redirects load fuel (chain ++ [path]) target

/-! ## Result cache entries: TTL eviction and session invalidation

get_navigation_result_from_branch schedules `clear` through
`setTimeout(clear, maxage * 1000)` and a session-store subscription that
runs `clear` on the first emission after insertion (the `ready` flag
skips the immediate call a subscription receives, and `clear`
unsubscribes, making it one-shot). With the single-threaded event loop
firing timers on schedule, the observable contents of the cache at a
load are: an entry is live if now is before insertion + maxage and no
session emission occurred since insertion. A session emission therefore
empties the cache (every live entry was inserted earlier and holds a
live subscription). Time is in seconds. -/

structure TimedEntry where
  result : Nat
  inserted : Nat
  maxage : Nat
deriving DecidableEq, Repr

inductive CacheEv where
  | load (t : Nat) (key : String) (bypass : Bool) (leafMaxage : Option Nat) (fresh : Nat)
  | sessionEmit
deriving DecidableEq, Repr

/-- Entries whose eviction timer has not fired by time `t`. -/
def cache_expire (entries : List (String × TimedEntry)) (t : Nat) :
    List (String × TimedEntry) :=
  entries.filter (fun e => t < e.2.inserted + e.2.maxage)

/-- One cache event. A load first lets due timers fire, then (unless
bypassing) answers from the cache; a miss runs the loaders producing
`fresh` and, when the leaf declares a maxage, inserts it. The output of
a load is (result, answered-from-cache). -/
def cache_step (entries : List (String × TimedEntry)) :
    CacheEv → List (String × TimedEntry) × Option (Nat × Bool)
  | .sessionEmit => ([], none)
  | .load t key bypass leafMaxage fresh =>
    let live := cache_expire entries t
    match (if bypass then none else live.lookup key) with
    | some e => (live, some (e.result, true))
    | none =>
      let entries2 := match leafMaxage with
        | some m => (key, ⟨fresh, t, m⟩) :: live.filter (fun kv => kv.1 != key)
        | none => live
      (entries2, some (fresh, false))

/-- Run a sequence of cache events, collecting the outputs of the loads. -/
def cache_run (entries : List (String × TimedEntry)) :
    List CacheEv → List (Nat × Bool)
  | [] => []
  | ev :: rest =>
    match cache_step entries ev with
    | (entries2, some o) => o :: cache_run entries2 rest
    | (entries2, none) => cache_run entries2 rest

/-! ## The cancellation-token discipline of `update`

`update` allocates a fresh token (`const current_token = (token = {})`)
before awaiting its branch load; once the load resolves it checks
`token !== current_token` and returns before any mutation when stale;
when current it first truncates `invalidated`, then pushes the history
entry, replaces `current` and updates the render target (no suspension
between the check and those mutations on the success path). The machine
makes each update a two-phase program — alloc, then finish (= resolve +
check + commit) — over the shared state, and `invalidate` a register
action appending a predicate. -/

structure TokenState where
  token : Nat
  invalidated : List Nat
  history : List Nat
  current : Option Nat
deriving DecidableEq, Repr

inductive TokenAct where
  | register (p : Nat)
  | alloc (n : Nat)
  | finish (n : Nat)
deriving DecidableEq, Repr

def token_step (s : TokenState) : TokenAct → TokenState
  | .register p => { s with invalidated := s.invalidated ++ [p] }
  | .alloc n => { s with token := n }
  | .finish n =>
    if s.token = n then
      { token := s.token, invalidated := [], history := s.history ++ [n],
        current := some n }
    else s

def token_run (s : TokenState) (l : List TokenAct) : TokenState :=
  l.foldl token_step s

/-! ## History index and scroll positions

`update` advances `current_history_index` by `replaceState ? 0 : 1` when
committing with details; `navigate` first records the scroll position of
the active entry via `update_scroll_positions(current_history_index)`,
which assigns into the `scroll_positions` map keyed by index (repeat
visits overwrite the slot). -/

def scroll_keys (m : List (Nat × (Nat × Nat))) : List Nat := m.map Prod.fst

/-- `scroll_positions[index] = scroll_state()`: overwrite the slot if
present, append it otherwise. -/
def update_scroll_positions (m : List (Nat × (Nat × Nat))) (index : Nat)
    (pos : Nat × Nat) : List (Nat × (Nat × Nat)) :=
  if (scroll_keys m).contains index then
    m.map (fun kv => if kv.1 = index then (index, pos) else kv)
  else m ++ [(index, pos)]

structure HistState where
  index : Nat
  scroll : List (Nat × (Nat × Nat))
deriving DecidableEq, Repr

/-- One goto that reaches the history-details commit: record the scroll
position of the entry being left, then advance the index by 0 on
replaceState and 1 on pushState. -/
def goto_commit (h : HistState) (replaceState : Bool) (pos : Nat × Nat) : HistState :=
  { index := h.index + (if replaceState then 0 else 1),
    scroll := update_scroll_positions h.scroll h.index pos }

def repeat_replace_goto (pos : Nat × Nat) : Nat → HistState → HistState
  | 0, h => h
  | n + 1, h => repeat_replace_goto pos n (goto_commit h true pos)

/-! ## get_navigation_intent and prefetch -/

inductive TrailingSlash where
  | ignore
  | always
  | never
deriving DecidableEq, Repr

/-- Modelled from the spec: `normalize_path` (utils/url.js, not under
src/) applies the configured trailing-slash policy to a pathname. -/
def normalize_path (path : String) (ts : TrailingSlash) : String :=
  match ts with
  | .ignore => path
  | .always => if path.endsWith "/" then path else path ++ "/"
  | .never => if path ≠ "/" ∧ path.endsWith "/" then path.dropRight 1 else path

/-- `decodeURI` is a browser primitive; percent-decoding is irrelevant to
the claims, so it is the identity here. -/
def decodeURI_model (s : String) : String := s

/-- `decodeURI(url.pathname.slice(base.length) || '/')`. -/
def strip_path (base : String) (url : UrlT) : String :=
  decodeURI_model
    (if url.pathname.drop base.length = "" then "/" else url.pathname.drop base.length)

/-- A manifest route as the matcher sees it: an exec function extracting
params from a stripped path, plus the loader lists. -/
structure MatchRoute where
  rdef : RouteDef
  exec : String → Option ParamsT

/-- get_navigation_intent: no intent when the origin differs, the
pathname is outside the base path, or no route matches the stripped
decoded path; otherwise the first matching route (manifest order) with
its params and the normalized-path cache id. -/
def get_navigation_intent (appOrigin base : String) (ts : TrailingSlash)
    (routes : List MatchRoute) (url : UrlT) : Option Intent :=
  if url.origin ≠ appOrigin ∨ ¬ url.pathname.startsWith base then none
  else
    routes.findSome? (fun r =>
      (r.exec (strip_path base url)).map (fun params =>
        { id := normalize_path url.pathname ts ++ url.search, url := url,
          params := params, route := r.rdef }))

/-- Observable outcome of `prefetch(url)`: either the thrown error, or
the updated in-flight load_cache slot. -/
structure PrefetchOut where
  error : Option String
  load_cache_id : Option String
  load_cache_promise : Option NavigationResult

/-- prefetch: resolve the intent; without one, throw before touching the
in-flight slot; with one, store the in-flight promise and id. -/
def prefetch_model (appOrigin base : String) (ts : TrailingSlash)
    (routes : List MatchRoute) (env : LoadEnv) (st : ClientState) (url : UrlT) :
    PrefetchOut :=
  match get_navigation_intent appOrigin base ts routes url with
  | none =>
    { error := some "Attempted to prefetch a URL that does not belong to this app",
      load_cache_id := st.load_cache_id, load_cache_promise := st.load_cache_promise }
  | some intent =>
    { error := none, load_cache_id := some intent.id,
      load_cache_promise := ((load_route env st intent false).toOption).map LoopOut.result }

/-! ## The spec's wording of the reuse rule (for the refinement claim) -/

/-- Written from the spec's words, for comparison with
changed_since_last_render: reuse the previous BranchNode unchanged iff
the module reference is identical, none of its recorded usage inputs
(url, any changed named parameter, session, stuff) are in the changed
set, none of its dependency URLs satisfy an active invalidation
predicate, and no earlier node's stuff contribution changed. -/
def spec_reuse (prev : BranchNode) (module : Module) (changed : Changed)
    (invalidated : List (String → Bool)) (stuff_changed : Bool) : Prop :=
  module.ref = prev.module.ref ∧
  ¬ (changed.url = true ∧ prev.uses.url = true) ∧
  (∀ p ∈ changed.params, p ∉ prev.uses.params) ∧
  ¬ (changed.session = true ∧ prev.uses.session = true) ∧
  (∀ dep ∈ prev.uses.dependencies, ∀ f ∈ invalidated, f dep = false) ∧
  ¬ (stuff_changed = true ∧ prev.uses.stuff = true)

/-! ## Concrete fixtures for the examples, witnesses and counterexamples -/

/-- A shadow response that is never consulted (routes without shadow). -/
def no_shadow : ShadowResponse :=
  { ok := true, status := 200, location := none, props := [], errorBody := none }

def default_layout_module : Module := { ref := 0, load := none }

def default_error_module : Module := { ref := 1, load := none }

def env0 : LoadEnv :=
  { shadow := no_shadow, default_layout := default_layout_module,
    default_error := default_error_module }

def blank_state : NavigationState :=
  { url := none, params := [], branch := [], error := none, stuff := [], session_id := 0 }

/-- Client state before the first commit: no current URL, empty branch,
nothing cached, nothing in flight. -/
def st_blank : ClientState :=
  { current := blank_state, session_id := 1, session := 0, invalidated := [],
    cache := [], load_cache_id := none, load_cache_promise := none }

def empty_uses : Uses :=
  { params := [], url := false, session := false, stuff := false, dependencies := [] }

def plain_result (props : Props) : LoadResult :=
  { status := none, error := none, redirect := none, props := props, stuff := none,
    dependencies := [], cache := none }

/-- The loader of route `/posts/[id]`: reads `params.id` (and nothing
else) and returns `{props: {title}}`. -/
def posts_loader : LoadCtx → LoadOutcome × Uses := fun ctx =>
  (.ok (plain_result [("title", ((ctx.params.lookup "id").getD "").length)]),
   { params := ["id"], url := false, session := false, stuff := false,
     dependencies := [] })

def posts_module : Module := { ref := 10, load := some posts_loader }

def posts_route : RouteDef :=
  { id := "posts/[id]", a := [some posts_module], b := [none], has_shadow := false }

/-- The BranchNode produced by loading `/posts/1` with posts_loader. -/
def posts_node1 : BranchNode :=
  { module := posts_module,
    uses := { params := ["id"], url := false, session := false, stuff := false,
              dependencies := [] },
    loaded := some (plain_result [("title", 1)]),
    stuff := [] }

def url_posts1 : UrlT :=
  { origin := "https://app", pathname := "/posts/1", search := "", hash := "" }

def url_posts2 : UrlT :=
  { origin := "https://app", pathname := "/posts/2", search := "", hash := "" }

def url_posts1x1 : UrlT :=
  { origin := "https://app", pathname := "/posts/1", search := "?x=1", hash := "" }

def url_posts1x2 : UrlT :=
  { origin := "https://app", pathname := "/posts/1", search := "?x=2", hash := "" }

/-- State committed after navigating to `/posts/1`. -/
def st_posts1 : ClientState :=
  { current := { url := some url_posts1, params := [("id", "1")],
                 branch := [some posts_node1], error := none, stuff := [],
                 session_id := 1 },
    session_id := 1, session := 0, invalidated := [], cache := [],
    load_cache_id := none, load_cache_promise := none }

def intent_posts2 : Intent :=
  { id := "/posts/2", url := url_posts2, params := [("id", "2")], route := posts_route }

/-- State committed after navigating to `/posts/1?x=1`. -/
def st_posts1x1 : ClientState :=
  { current := { url := some url_posts1x1, params := [("id", "1")],
                 branch := [some posts_node1], error := none, stuff := [],
                 session_id := 1 },
    session_id := 1, session := 0, invalidated := [], cache := [],
    load_cache_id := none, load_cache_promise := none }

def intent_posts1x2 : Intent :=
  { id := "/posts/1?x=2", url := url_posts1x2, params := [("id", "1")],
    route := posts_route }

/-- A loader whose normalized result carries a redirect. -/
def redir_loader : LoadCtx → LoadOutcome × Uses := fun _ =>
  (.ok { status := none, error := none, redirect := some "/next", props := [],
         stuff := none, dependencies := [], cache := none },
   empty_uses)

def redir_module : Module := { ref := 30, load := some redir_loader }

def redir_route : RouteDef :=
  { id := "redir", a := [some redir_module], b := [none], has_shadow := false }

def url_r : UrlT :=
  { origin := "https://app", pathname := "/r", search := "", hash := "" }

def intent_redir : Intent :=
  { id := "/r", url := url_r, params := [], route := redir_route }

/-- The instrumented output load_route produces for intent_redir from
st_blank: an early redirect at position 0 with the state left at the
previously committed one and the cache untouched. -/
def out_redir : LoopOut :=
  { result := redirect_result st_blank "/next", cache := [], executed := [0],
    earlyRedirect := some 0, fromInFlight := false, fromCache := false }

/-- A layout loader that succeeds with empty props. -/
def layout_loader : LoadCtx → LoadOutcome × Uses := fun _ =>
  (.ok (plain_result []), empty_uses)

def layout_module : Module := { ref := 20, load := some layout_loader }

/-- A leaf loader that resolves with no value. -/
def missing_loader : LoadCtx → LoadOutcome × Uses := fun _ =>
  (.missing, empty_uses)

def missing_module : Module := { ref := 21, load := some missing_loader }

/-- An error-boundary loader that succeeds. -/
def boundary_loader : LoadCtx → LoadOutcome × Uses := fun _ =>
  (.ok (plain_result [("recovered", 1)]), empty_uses)

def boundary_module : Module := { ref := 22, load := some boundary_loader }

def url_c6 : UrlT :=
  { origin := "https://app", pathname := "/c6", search := "", hash := "" }

/-- Layout + leaf-with-missing-return, with an error boundary at the
layout position. -/
def c6_route_boundary : RouteDef :=
  { id := "c6", a := [some layout_module, some missing_module],
    b := [some boundary_module, none], has_shadow := false }

/-- Same ancestors, no boundary anywhere. -/
def c6_route_nobound : RouteDef :=
  { id := "c6n", a := [some layout_module, some missing_module],
    b := [none, none], has_shadow := false }

def intent_c6b : Intent :=
  { id := "/c6", url := url_c6, params := [], route := c6_route_boundary }

def intent_c6n : Intent :=
  { id := "/c6", url := url_c6, params := [], route := c6_route_nobound }

/-- A NavigationResult standing for the value an in-flight load resolves
to. -/
def trivial_nav_result : NavigationResult :=
  { redirect := none, state := blank_state, components := [], props_list := [],
    page := none }

/-- A loader that would run on a fresh load of `/x`. -/
def count_loader : LoadCtx → LoadOutcome × Uses := fun _ =>
  (.ok (plain_result [("fresh", 1)]), empty_uses)

def count_module : Module := { ref := 40, load := some count_loader }

def count_route : RouteDef :=
  { id := "x", a := [some count_module], b := [none], has_shadow := false }

def url_x : UrlT :=
  { origin := "https://app", pathname := "/x", search := "", hash := "" }

def intent_x : Intent :=
  { id := "/x", url := url_x, params := [], route := count_route }

/-- Client state with an in-flight load for `/x`. -/
def st_inflight : ClientState :=
  { current := blank_state, session_id := 1, session := 0, invalidated := [],
    cache := [], load_cache_id := some "/x",
    load_cache_promise := some trivial_nav_result }

/-- A chain of pages each redirecting to the next distinct pathname. -/
def chain_load : String → Option String := fun p =>
  List.lookup p
    [("/p0", "/p1"), ("/p1", "/p2"), ("/p2", "/p3"), ("/p3", "/p4"), ("/p4", "/p5"),
     ("/p5", "/p6"), ("/p6", "/p7"), ("/p7", "/p8"), ("/p8", "/p9"), ("/p9", "/p10"),
     ("/p10", "/p11"), ("/p11", "/p12")]

/-- Two pages redirecting to each other: /a → /b → /a. -/
def loop_load : String → Option String := fun p =>
  List.lookup p [("/a", "/b"), ("/b", "/a")]

def url_err : UrlT :=
  { origin := "https://app", pathname := "/err", search := "", hash := "" }

/-- A leaf BranchNode whose loaded result declares `cache: {maxage: 5}`. -/
def cached_leaf_node : BranchNode :=
  { module := { ref := 50, load := none },
    uses := empty_uses,
    loaded := some { status := none, error := none, redirect := none,
                     props := [("p", 1)], stuff := none, dependencies := [],
                     cache := some 5 },
    stuff := [] }

def url_cachedA : UrlT :=
  { origin := "https://app", pathname := "/c", search := "?q=1", hash := "#one" }

def url_cachedB : UrlT :=
  { origin := "https://app", pathname := "/c", search := "?q=1", hash := "#two" }

/-- A manifest route matching only the path "/m". -/
def match_m : MatchRoute :=
  { rdef := count_route,
    exec := fun path => if path = "/m" then some [] else none }

def url_evil : UrlT :=
  { origin := "https://evil", pathname := "/m", search := "", hash := "" }

/-- Initial token-machine state: token 0, nothing registered, empty
history, no committed navigation. -/
def s0_token : TokenState :=
  { token := 0, invalidated := [], history := [], current := none }

/-- A previously committed node that registered a fetch dependency. -/
def dep_node : BranchNode :=
  { module := { ref := 60, load := none },
    uses := { params := [], url := false, session := false, stuff := false,
              dependencies := ["https://x/api"] },
    loaded := none, stuff := [] }

def dep_module : Module := { ref := 60, load := none }

def c0_changed : Changed := { url := false, params := [], session := false }

/-- The predicate `invalidate("https://x/api")` registers. -/
def pred0 : String → Bool := fun d => d == "https://x/api"

/-! ## Theorems -/

/-- C1: last-navigation-wins. For two navigations A and B whose updates
are both in flight — B allocates its cancellation token after A's and
before A's pre-commit check, as `update` does token allocation before
awaiting the branch load and the check after — A's finish observes the
stale token and leaves the state untouched (no history mutation, no
replacement of the current NavigationState), and only B's result is
committed, whichever order the two loads resolve in. -/
theorem c1_last_navigation_wins (s : TokenState) (a b : Nat) (hab : a ≠ b) :
    token_step (token_run s [.alloc a, .alloc b]) (.finish a) =
      token_run s [.alloc a, .alloc b] ∧
    (token_run s [.alloc a, .alloc b, .finish a, .finish b]).history =
      s.history ++ [b] ∧
    (token_run s [.alloc a, .alloc b, .finish a, .finish b]).current = some b ∧
    (token_run s [.alloc a, .alloc b, .finish b, .finish a]).history =
      s.history ++ [b] ∧
    (token_run s [.alloc a, .alloc b, .finish b, .finish a]).current = some b := by
  have hba : b ≠ a := Ne.symm hab
  refine ⟨?_, ?_, ?_, ?_, ?_⟩ <;>
    simp [token_run, token_step, hba]

theorem c1_witness :
    token_step (token_run s0_token [.alloc 1, .alloc 2]) (.finish 1) =
      token_run s0_token [.alloc 1, .alloc 2] ∧
    (token_run s0_token [.alloc 1, .alloc 2, .finish 1, .finish 2]).history =
      s0_token.history ++ [2] ∧
    (token_run s0_token [.alloc 1, .alloc 2, .finish 1, .finish 2]).current = some 2 ∧
    (token_run s0_token [.alloc 1, .alloc 2, .finish 2, .finish 1]).history =
      s0_token.history ++ [2] ∧
    (token_run s0_token [.alloc 1, .alloc 2, .finish 2, .finish 1]).current = some 2 :=
  c1_last_navigation_wins s0_token 1 2 (by decide)

/-- C10: the invalidation-predicate list is cleared only by an update
that passes the token check: a superseded update's finish leaves the
registered predicates in place; the next winning update clears them at
its own commit; and a registered predicate matching a recorded dependency
URL makes the reuse check of the next load re-execute that node. -/
theorem c10_invalidated_cleared_only_on_commit (s : TokenState) (p a b : Nat)
    (hab : a ≠ b) :
    (token_run s [.register p, .alloc a, .alloc b, .finish a]).invalidated =
      s.invalidated ++ [p] ∧
    (token_run s [.register p, .alloc a, .alloc b, .finish a, .finish b]).invalidated =
      [] ∧
    (∀ (prev : BranchNode) (module : Module) (c : Changed) (f : String → Bool)
       (dep : String), dep ∈ prev.uses.dependencies → f dep = true →
       changed_since_last_render (some prev) module (some c) [f] false = true) := by
  have hba : b ≠ a := Ne.symm hab
  refine ⟨by simp [token_run, token_step, hba], by simp [token_run, token_step, hba], ?_⟩
  intro prev module c f dep hdep hf
  simp [changed_since_last_render]
  exact Or.inr ⟨dep, hdep, hf⟩

theorem c10_witness :
    (token_run s0_token [.register 7, .alloc 1, .alloc 2, .finish 1]).invalidated =
      [7] ∧
    (token_run s0_token
      [.register 7, .alloc 1, .alloc 2, .finish 1, .finish 2]).invalidated = [] ∧
    changed_since_last_render (some dep_node) dep_module (some c0_changed) [pred0]
      false = true :=
  ⟨(c10_invalidated_cleared_only_on_commit s0_token 7 1 2 (by decide)).1,
   (c10_invalidated_cleared_only_on_commit s0_token 7 1 2 (by decide)).2.1,
   (c10_invalidated_cleared_only_on_commit s0_token 7 1 2 (by decide)).2.2
     dep_node dep_module c0_changed pred0 "https://x/api" (by decide) rfl⟩

/-- C2: redirect-loop guard. When a branch load yields a redirect and the
accumulated chain is longer than 10 or already contains the current
pathname, the redirect is not followed: the navigation resolves to the
root error page with status 500 and error "Redirect loop". A chain that
has accumulated 11 distinct pathnames hits the guard, as does a chain
revisiting /a (detected at the second occurrence of /a with chain
[/a, /b]); and load_root_error_page with that status/error produces the
default-layout/default-error branch carrying status 500 and the
"Redirect loop" error. -/
theorem c2_redirect_loop_guard :
    (∀ (load : String → Option String) (chain : List String) (path target : String)
       (fuel : Nat), load path = some target →
       (chain.length > 10 ∨ chain.contains path) →
       follow_redirects load (fuel + 1) chain path =
         .rootError 500 "Redirect loop" chain path) ∧
    follow_redirects chain_load 20 [] "/p0" =
      .rootError 500 "Redirect loop"
        ["/p0", "/p1", "/p2", "/p3", "/p4", "/p5", "/p6", "/p7", "/p8", "/p9", "/p10"]
        "/p11" ∧
    follow_redirects loop_load 20 [] "/a" =
      .rootError 500 "Redirect loop" ["/a", "/b"] "/a" ∧
    (load_root_error_page env0 st_blank (some 500) "Redirect loop" url_err none).map
      (fun rc => (rc.1.state.error, rc.1.page.map PageInfo.status, rc.1.components)) =
      .ok (some "Redirect loop", some (some 500), [0, 1]) := by
  refine ⟨?_, rfl, rfl, rfl⟩
  intro load chain path target fuel h1 h2
  simp only [follow_redirects, h1]
  rw [if_pos h2]

theorem c2_witness :
    follow_redirects (fun _ => some "/t") 1 ["/z"] "/z" =
      .rootError 500 "Redirect loop" ["/z"] "/z" :=
  c2_redirect_loop_guard.1 (fun _ => some "/t") ["/z"] "/z" "/t" 0 rfl
    (Or.inr (by decide))

/-- C6 counterexample: a leaf loader that resolves with no value throws
"load function must return a value", which is caught by the load loop
like any other load error and absorbed by the ancestor error boundary at
the layout position: the resulting branch is [layout (ref 20), boundary
(ref 22)], not the root error page — refuting the claim that
MissingReturn is not recoverable by boundaries. -/
theorem c6_counterexample :
    (load_route env0 st_blank intent_c6b false).map
      (fun o => (o.result.state.branch.map (Option.map (fun n => n.module.ref)),
                 o.result.state.error)) =
      .ok ([some 20, some 22], some "load function must return a value") := rfl

/-- C6 amended: a loader resolving with no value makes load_node throw
"load function must return a value"; load_route catches it as a
status-500 load error and runs the ordinary error-recovery walk: with no
boundary the navigation falls back to the root error page (default
layout ref 0 / default error ref 1, status 500, that error), and with a
succeeding ancestor boundary the branch is truncated and recovered (leaf
is the boundary, ref 22, still carrying status 500). -/
theorem c6_amended :
    load_node none none missing_module url_c6 [] [] 0 (some "c6") none =
      .error "load function must return a value" ∧
    (load_route env0 st_blank intent_c6n false).map
      (fun o => (o.result.state.branch.map (Option.map (fun n => n.module.ref)),
                 o.result.state.error, o.result.page.map PageInfo.status)) =
      .ok ([some 0, some 1], some "load function must return a value",
           some (some 500)) ∧
    (load_route env0 st_blank intent_c6b false).map
      (fun o => (o.result.state.branch.getLast?.map (Option.map (fun n => n.module.ref)),
                 o.result.page.map PageInfo.status)) =
      .ok (some (some 22), some (some 500)) :=
  ⟨rfl, rfl, rfl⟩

/-- C7 counterexample: with an in-flight load recorded for intent id
"/x", load_route called with bypassCache = true still returns the shared
in-flight result and performs no fresh load (no loader executed) — the
in-flight check at the top of load_route does not consult no_cache. -/
theorem c7_counterexample :
    load_route env0 st_inflight intent_x true =
      .ok { result := trivial_nav_result, cache := [], executed := [],
            earlyRedirect := none, fromInFlight := true, fromCache := false } := rfl

/-- C7 amended: an in-flight load for the same intent id is awaited and
returned regardless of bypassCache; bypassCache only skips the
result-cache lookup that follows. -/
theorem c7_amended (env : LoadEnv) (st : ClientState) (intent : Intent) (nc : Bool)
    (p : NavigationResult) (h1 : st.load_cache_id = some intent.id)
    (h2 : st.load_cache_promise = some p) :
    load_route env st intent nc =
      .ok { result := p, cache := st.cache, executed := [], earlyRedirect := none,
            fromInFlight := true, fromCache := false } := by
  unfold load_route
  rw [h1, h2]
  simp

theorem c7_witness :
    load_route env0 st_inflight intent_x false =
      .ok { result := trivial_nav_result, cache := st_inflight.cache, executed := [],
            earlyRedirect := none, fromInFlight := true, fromCache := false } :=
  c7_amended env0 st_inflight intent_x false trivial_nav_result rfl rfl

/-- C3: the reuse rule. changed_since_last_render is false — the previous
BranchNode is reused unchanged — exactly under the spec's condition
(identical module reference, no marked usage input in the changed set, no
dependency URL satisfying an active invalidation predicate, no earlier
stuff change). Consequently navigating /posts/1 → /posts/2 re-executes
the loader that read params.id (position 0 is executed), while changing
only the search string leaves a loader that never read url untouched
(nothing executed, the previous node is pushed unchanged). -/
theorem c3_branch_reuse :
    (∀ (prev : BranchNode) (module : Module) (c : Changed)
       (invalidated : List (String → Bool)) (sc : Bool),
       changed_since_last_render (some prev) module (some c) invalidated sc = false ↔
         spec_reuse prev module c invalidated sc) ∧
    (load_route env0 st_posts1 intent_posts2 false).map LoopOut.executed = .ok [0] ∧
    (load_route env0 st_posts1x1 intent_posts1x2 false).map
      (fun o => (o.executed, o.result.state.branch)) = .ok ([], [some posts_node1]) := by
  refine ⟨?_, rfl, rfl⟩
  intro prev module c invalidated sc
  have e2 : ∀ (x y : Bool), (x && y) = false ↔ ¬ (x = true ∧ y = true) := by
    intro x y
    cases x <;> cases y <;> simp
  simp only [changed_since_last_render, spec_reuse, Option.map_some', Option.getD_some,
    Bool.or_eq_false_iff, bne_eq_false_iff_eq, e2, List.any_eq_false]
  constructor
  · rintro ⟨⟨⟨⟨⟨hm, hu⟩, hp⟩, hs⟩, hd⟩, hst⟩
    refine ⟨hm, hu, ?_, hs, ?_, hst⟩
    · intro p hp2
      have h3 := hp p hp2
      simpa [List.elem_iff] using h3
    · intro dep hdep f hf
      have h3 := hd dep hdep
      simp only [List.any_eq_true, not_exists, not_and, Bool.not_eq_true] at h3
      exact h3 f hf
  · rintro ⟨hm, hu, hp, hs, hd, hst⟩
    refine ⟨⟨⟨⟨⟨hm, hu⟩, ?_⟩, hs⟩, ?_⟩, hst⟩
    · intro p hp2
      have h3 := hp p hp2
      simpa [List.elem_iff] using h3
    · intro dep hdep
      simp only [List.any_eq_true, not_exists, not_and, Bool.not_eq_true]
      intro f hf
      exact hd dep hdep f hf

/-- C4: the result cache. A result whose leaf declares a cache maxage is
inserted keyed by pathname+search (the hash is excluded — cache_key
ignores it, and get_navigation_result_from_branch inserts under that
key); a second load of the same key before insertion + maxage without
bypass returns the identical cached result with no loader run; at or
after insertion + maxage the timer has evicted it and the loaders run
again; and a session-store emission after insertion also evicts it (the
one-shot subscription), forcing the next load to re-execute. -/
theorem c4_result_cache :
    (∀ (k : String) (m r f t t2 : Nat), t2 < t + m →
       cache_run [] [.load t k false (some m) r, .load t2 k false (some m) f] =
         [(r, false), (r, true)]) ∧
    (∀ (k : String) (m r f t t2 : Nat), t + m ≤ t2 →
       cache_run [] [.load t k false (some m) r, .load t2 k false (some m) f] =
         [(r, false), (f, false)]) ∧
    (∀ (k : String) (m r f t t2 : Nat),
       cache_run []
         [.load t k false (some m) r, .sessionEmit, .load t2 k false (some m) f] =
         [(r, false), (f, false)]) ∧
    (∀ (o p s h1 h2 : String),
       cache_key { origin := o, pathname := p, search := s, hash := h1 } =
         cache_key { origin := o, pathname := p, search := s, hash := h2 }) ∧
    (get_navigation_result_from_branch 1 blank_state [] url_cachedA [] []
        [some cached_leaf_node] (some 200) none none).2.map Prod.fst =
      [cache_key url_cachedA] := by
  refine ⟨?_, ?_, ?_, fun _ _ _ _ _ => rfl, rfl⟩
  · intro k m r f t t2 h
    simp [cache_run, cache_step, cache_expire, h]
  · intro k m r f t t2 h
    have h2 : ¬ t2 < t + m := Nat.not_lt.2 h
    simp [cache_run, cache_step, cache_expire, h2]
  · intro k m r f t t2
    simp [cache_run, cache_step, cache_expire]

theorem c4_witness :
    cache_run [] [.load 0 "k" false (some 5) 7, .load 3 "k" false (some 5) 8] =
      [(7, false), (7, true)] ∧
    cache_run [] [.load 0 "k" false (some 5) 7, .load 5 "k" false (some 5) 8] =
      [(7, false), (8, false)] ∧
    cache_run []
      [.load 0 "k" false (some 5) 7, .sessionEmit, .load 3 "k" false (some 5) 8] =
      [(7, false), (8, false)] :=
  ⟨c4_result_cache.1 "k" 5 7 8 0 3 (by decide),
   c4_result_cache.2.1 "k" 5 7 8 0 5 (by decide),
   c4_result_cache.2.2.1 "k" 5 7 8 0 3⟩

theorem map_fst_overwrite (m : List (Nat × (Nat × Nat))) (i : Nat) (p : Nat × Nat) :
    (m.map (fun kv => if kv.1 = i then (i, p) else kv)).map Prod.fst =
      m.map Prod.fst := by
  induction m with
  | nil => rfl
  | cons head tail ih =>
    by_cases h : head.1 = i <;> simp [h, ih]

theorem scroll_keys_overwrite (m : List (Nat × (Nat × Nat))) (i : Nat) (p : Nat × Nat)
    (h : (scroll_keys m).contains i = true) :
    scroll_keys (update_scroll_positions m i p) = scroll_keys m := by
  unfold update_scroll_positions
  rw [if_pos h]
  exact map_fst_overwrite m i p

theorem scroll_keys_append (m : List (Nat × (Nat × Nat))) (i : Nat) (p : Nat × Nat)
    (h : (scroll_keys m).contains i = false) :
    scroll_keys (update_scroll_positions m i p) = scroll_keys m ++ [i] := by
  unfold update_scroll_positions
  rw [if_neg (by rw [h]; simp)]
  simp [scroll_keys]

theorem goto_commit_replace (h : HistState) (pos : Nat × Nat)
    (hnd : (scroll_keys h.scroll).Nodup) :
    (goto_commit h true pos).index = h.index ∧
    (scroll_keys (goto_commit h true pos).scroll).Nodup ∧
    (∀ k ∈ scroll_keys (goto_commit h true pos).scroll,
      k ∈ h.index :: scroll_keys h.scroll) := by
  by_cases hc : (scroll_keys h.scroll).contains h.index = true
  · refine ⟨by simp [goto_commit], ?_, ?_⟩
    · simp only [goto_commit]
      rw [scroll_keys_overwrite h.scroll h.index pos hc]
      exact hnd
    · simp only [goto_commit]
      rw [scroll_keys_overwrite h.scroll h.index pos hc]
      intro k hk
      exact List.mem_cons_of_mem _ hk
  · have hc2 : (scroll_keys h.scroll).contains h.index = false := by
      simpa using hc
    have hmem : h.index ∉ scroll_keys h.scroll := by
      intro hm
      have h3 : (scroll_keys h.scroll).contains h.index = true := by
        simpa [List.contains] using List.elem_iff.2 hm
      rw [h3] at hc2
      exact absurd hc2 (by simp)
    refine ⟨by simp [goto_commit], ?_, ?_⟩
    · simp only [goto_commit]
      rw [scroll_keys_append h.scroll h.index pos hc2]
      simp [List.nodup_append, hnd, hmem]
    · simp only [goto_commit]
      rw [scroll_keys_append h.scroll h.index pos hc2]
      intro k hk
      rcases List.mem_append.1 hk with hk2 | hk2
      · exact List.mem_cons_of_mem _ hk2
      · simp only [List.mem_singleton] at hk2
        simp [hk2]

/-- C8: repeating goto to the committed URL with replaceState true leaves
current_history_index unchanged (in particular it grows by at most one
step) and the scroll-position map keeps distinct index keys — repeat
visits overwrite the same slot, never duplicating an entry. -/
theorem c8_replace_idempotent (h : HistState) (pos : Nat × Nat) (n : Nat)
    (hnd : (scroll_keys h.scroll).Nodup) :
    (repeat_replace_goto pos n h).index = h.index ∧
    (repeat_replace_goto pos n h).index ≤ h.index + 1 ∧
    (scroll_keys (repeat_replace_goto pos n h).scroll).Nodup ∧
    (∀ k ∈ scroll_keys (repeat_replace_goto pos n h).scroll,
      k ∈ h.index :: scroll_keys h.scroll) := by
  induction n generalizing h with
  | zero =>
    exact ⟨rfl, Nat.le_succ _, hnd, fun k hk => List.mem_cons_of_mem _ hk⟩
  | succ n ih =>
    obtain ⟨hidx, hnd2, hsub⟩ := goto_commit_replace h pos hnd
    obtain ⟨ih1, ih2, ih3, ih4⟩ := ih (goto_commit h true pos) hnd2
    refine ⟨by rw [repeat_replace_goto, ih1, hidx],
            by rw [repeat_replace_goto, ih1, hidx]; exact Nat.le_succ _,
            by rw [repeat_replace_goto]; exact ih3, ?_⟩
    intro k hk
    rw [repeat_replace_goto] at hk
    rcases List.mem_cons.1 (ih4 k hk) with hk2 | hk2
    · rw [hk2, hidx]
      exact List.mem_cons_self _ _
    · rcases List.mem_cons.1 (hsub k hk2) with hk3 | hk3
      · rw [hk3]
        exact List.mem_cons_self _ _
      · exact List.mem_cons_of_mem _ hk3

theorem c8_witness :
    (repeat_replace_goto (1, 2) 3 ⟨5, [(3, (0, 0))]⟩).index = 5 ∧
    (repeat_replace_goto (1, 2) 3 ⟨5, [(3, (0, 0))]⟩).index ≤ 5 + 1 ∧
    (scroll_keys (repeat_replace_goto (1, 2) 3 ⟨5, [(3, (0, 0))]⟩).scroll).Nodup ∧
    (∀ k ∈ scroll_keys (repeat_replace_goto (1, 2) 3 ⟨5, [(3, (0, 0))]⟩).scroll,
      k ∈ 5 :: scroll_keys [(3, (0, 0))]) :=
  c8_replace_idempotent ⟨5, [(3, (0, 0))]⟩ (1, 2) 3 (by decide)

theorem findSome_eq_none {α β : Type} (f : α → Option β) :
    ∀ (l : List α), (∀ a ∈ l, f a = none) → l.findSome? f = none := by
  intro l h
  induction l with
  | nil => rfl
  | cons a t ih =>
    rw [List.findSome?_cons, h a (List.mem_cons_self a t)]
    exact ih (fun x hx => h x (List.mem_cons_of_mem a hx))

/-- C9: prefetch of a URL with a foreign origin, a pathname outside the
base path, or a stripped pathname matching no manifest route throws
"Attempted to prefetch a URL that does not belong to this app" and leaves
the in-flight load slot untouched. -/
theorem c9_prefetch_rejects (appOrigin base : String) (ts : TrailingSlash)
    (routes : List MatchRoute) (env : LoadEnv) (st : ClientState) (url : UrlT)
    (h : url.origin ≠ appOrigin ∨ url.pathname.startsWith base = false ∨
         ∀ r ∈ routes, r.exec (strip_path base url) = none) :
    prefetch_model appOrigin base ts routes env st url =
      { error := some "Attempted to prefetch a URL that does not belong to this app",
        load_cache_id := st.load_cache_id,
        load_cache_promise := st.load_cache_promise } := by
  have hnone : get_navigation_intent appOrigin base ts routes url = none := by
    unfold get_navigation_intent
    rcases h with h | h | h
    · rw [if_pos (Or.inl h)]
    · rw [if_pos (Or.inr (by simp [h]))]
    · by_cases hc : url.origin ≠ appOrigin ∨ ¬ url.pathname.startsWith base
      · rw [if_pos hc]
      · rw [if_neg hc]
        apply findSome_eq_none
        intro r hr
        rw [h r hr]
        rfl
  unfold prefetch_model
  rw [hnone]

theorem c9_witness :
    prefetch_model "https://app" "" .ignore [match_m] env0 st_blank url_evil =
      { error := some "Attempted to prefetch a URL that does not belong to this app",
        load_cache_id := st_blank.load_cache_id,
        load_cache_promise := st_blank.load_cache_promise } :=
  c9_prefetch_rejects "https://app" "" .ignore [match_m] env0 st_blank url_evil
    (Or.inl (by decide))

theorem handle_error_early_none (env : LoadEnv) (st : ClientState) (url : UrlT)
    (params : ParamsT) (route : RouteDef) (branch : List (Option BranchNode))
    (stuff : Stuff) (status : Option Nat) (error : String) (executed : List Nat)
    (i : Nat) (out : LoopOut)
    (h : handle_error env st url params route branch stuff status error executed i =
      .ok out) :
    out.earlyRedirect = none := by
  unfold handle_error at h
  split at h
  · simp only [Except.ok.injEq] at h
    subst h
    rfl
  · cases hle : load_root_error_page env st status error url (some route.id) with
    | error e =>
      rw [hle] at h
      simp [Except.map] at h
    | ok rc =>
      rw [hle] at h
      simp only [Except.map, Except.ok.injEq] at h
      subst h
      rfl

theorem load_loop_early_redirect (env : LoadEnv) (st : ClientState) (url : UrlT)
    (params : ParamsT) (route : RouteDef) (changed : Option Changed) :
    ∀ (rest : List (Option Module)) (i : Nat) (branch : List (Option BranchNode))
      (stuff : Stuff) (sc : Bool) (executed : List Nat) (out : LoopOut) (p : Nat),
      (∀ j ∈ executed, j < i) →
      load_loop env st url params route changed rest i branch stuff sc executed =
        .ok out →
      out.earlyRedirect = some p →
      out.result.state = st.current ∧ out.cache = st.cache ∧
      out.result.redirect.isSome = true ∧ (∀ j ∈ out.executed, j ≤ p) := by
  intro rest
  induction rest with
  | nil =>
    intro i branch stuff sc executed out p hex h hred
    simp only [load_loop, Except.ok.injEq] at h
    subst h
    simp [finish_branch] at hred
  | cons head tail ih =>
    intro i branch stuff sc executed out p hex h hred
    cases head with
    | none =>
      rw [load_loop] at h
      exact ih (i + 1) branch stuff sc executed out p
        (fun j hj => Nat.lt_succ_of_lt (hex j hj)) h hred
    | some module =>
      rw [load_loop] at h
      split at h
      · split at h
        · rename_i r ran heq
          simp only [Except.ok.injEq] at h
          subst h
          simp only [Option.some.injEq] at hred
          subst hred
          refine ⟨rfl, rfl, rfl, ?_⟩
          intro j hj
          rcases List.mem_append.1 hj with hj2 | hj2
          · exact Nat.le_of_lt (hex j hj2)
          · cases ran with
            | true =>
              simp only [if_true, List.mem_singleton] at hj2
              exact Nat.le_of_eq hj2
            | false => simp at hj2
        · have h2 := handle_error_early_none _ _ _ _ _ _ _ _ _ _ _ _ h
          rw [h2] at hred
          cases hred
        · exact ih (i + 1) _ _ _ (executed ++ [i]) out p
            (by
              intro j hj
              rcases List.mem_append.1 hj with hj2 | hj2
              · exact Nat.lt_succ_of_lt (hex j hj2)
              · simp only [List.mem_singleton] at hj2
                exact hj2 ▸ Nat.lt_succ_self i) h hred
      · split at h
        · exact ih (i + 1) _ _ _ executed out p
            (fun j hj => Nat.lt_succ_of_lt (hex j hj)) h hred
        · exact ih (i + 1) _ _ _ executed out p
            (fun j hj => Nat.lt_succ_of_lt (hex j hj)) h hred

theorem load_route_fresh_early (env : LoadEnv) (st : ClientState) (intent : Intent)
    (nc : Bool) (out : LoopOut) (p : Nat)
    (h : load_route_fresh env st intent nc = .ok out)
    (hred : out.earlyRedirect = some p) :
    out.result.state = st.current ∧ out.cache = st.cache ∧
    out.result.redirect.isSome = true ∧ (∀ j ∈ out.executed, j ≤ p) := by
  unfold load_route_fresh load_route_main at h
  split at h
  · exact load_loop_early_redirect env st intent.url intent.params intent.route
      (compute_changed st intent) intent.route.a 0 [] root_stuff false [] out p
      (fun j hj => absurd hj (List.not_mem_nil j)) h hred
  · split at h
    · simp only [Except.ok.injEq] at h
      subst h
      simp at hred
    · exact load_loop_early_redirect env st intent.url intent.params intent.route
        (compute_changed st intent) intent.route.a 0 [] root_stuff false [] out p
        (fun j hj => absurd hj (List.not_mem_nil j)) h hred

/-- C5: a redirect aborts the branch load. Whenever load_route returns
through the in-loop redirect path (a loader's normalized result or a
shadow-endpoint response carried a redirect, at position p), the returned
result's state is the previously committed NavigationState, the result
cache is unchanged (nothing inserted), the result carries the redirect,
and no loader at a position after p was executed. -/
theorem c5_redirect_aborts (env : LoadEnv) (st : ClientState) (intent : Intent)
    (nc : Bool) (out : LoopOut) (p : Nat)
    (h : load_route env st intent nc = .ok out)
    (hred : out.earlyRedirect = some p) :
    out.result.state = st.current ∧ out.cache = st.cache ∧
    out.result.redirect.isSome = true ∧ (∀ j ∈ out.executed, j ≤ p) := by
  unfold load_route at h
  split at h
  · split at h
    · simp only [Except.ok.injEq] at h
      subst h
      simp at hred
    · exact load_route_fresh_early env st intent nc out p h hred
  · exact load_route_fresh_early env st intent nc out p h hred
  · exact load_route_fresh_early env st intent nc out p h hred

theorem c5_witness :
    out_redir.result.state = st_blank.current ∧ out_redir.cache = st_blank.cache ∧
    out_redir.result.redirect.isSome = true ∧ (∀ j ∈ out_redir.executed, j ≤ 0) :=
  c5_redirect_aborts env0 st_blank intent_redir false out_redir 0 rfl rfl

end Router
